import Mathlib

/-!
Verification of the client-side data-shaping logic of the movie-browsing
web client (source: `src/frontend/src/pages/Home.jsx` and the axios wrapper
in `src/unnamed/part_000`).

The embedding is shallow: each relevant JavaScript function of `Home.jsx`
is translated into a computable Lean definition over explicit state records.
JavaScript numbers used as movie ids and ratings are modelled as rationals
(with a separate `NaN` marker where the code tests `isNaN`); this is faithful
for the comparisons the code performs, which only use the sign of a
difference of in-range values.  `Array.prototype.sort` (stable since
ES2019) is modelled by the stable `List.insertionSort`; `localeCompare`
and the default string sort are modelled by code-point lexicographic
order; `toLowerCase` is modelled by ASCII lowercasing (`Char.toLower`).
React semantics are modelled explicitly: a state setter only changes the
in-memory state record, and a `useEffect` body is a separate transition
that runs after the update commits.
-/

namespace MovieApp

/-! ### JavaScript string primitives -/

/-- Check whether `needle` is a leading segment of `hay` (character lists). -/
def strStarts : List Char → List Char → Bool
  | _, [] => true
  | [], _ :: _ => false
  | c :: cs, d :: ds => decide (c = d) && strStarts cs ds

/-- Model of JavaScript `String.prototype.includes`: `needle` occurs
contiguously somewhere in `hay`. -/
def strContains : List Char → List Char → Bool
  | [], needle => needle.isEmpty
  | c :: rest, needle => strStarts (c :: rest) needle || strContains rest needle

/-- Model of JavaScript `String.prototype.toLowerCase` (ASCII range, which
is what `Char.toLower` implements and what the code's genre/error strings
use). -/
def lowerChars (s : String) : List Char := s.toList.map Char.toLower

/-- Model of `hay.toLowerCase().includes(needle.toLowerCase())`, the
case-insensitive substring test used by the search filter. -/
def ciContains (hay needle : String) : Bool :=
  strContains (lowerChars hay) (lowerChars needle)

/-- Code-point lexicographic order on character lists, modelling the
ordering used by JavaScript `localeCompare` / default `Array.sort` on the
plain ASCII strings the catalog carries. -/
def lexLe : List Char → List Char → Bool
  | [], _ => true
  | _ :: _, [] => false
  | c :: cs, d :: ds => decide (c < d) || (decide (c = d) && lexLe cs ds)

theorem strContains_nil (hay : List Char) : strContains hay [] = true := by
  cases hay with
  | nil => rfl
  | cons c rest => simp [strContains, strStarts]

theorem lowerChars_empty : lowerChars "" = [] := rfl

theorem lexLe_total : ∀ a b : List Char, lexLe a b = true ∨ lexLe b a = true := by
  intro a
  induction a with
  | nil => intro b; left; rfl
  | cons c cs ih =>
    intro b
    cases b with
    | nil => right; rfl
    | cons d ds =>
      rcases lt_trichotomy c d with h | h | h
      · left; simp [lexLe, h]
      · subst h
        rcases ih ds with hh | hh
        · left; simp [lexLe, hh]
        · right; simp [lexLe, hh]
      · right; simp [lexLe, h]

theorem lexLe_trans :
    ∀ a b c : List Char, lexLe a b = true → lexLe b c = true → lexLe a c = true := by
  intro a
  induction a with
  | nil => intro b c _ _; rfl
  | cons x xs ih =>
    intro b c hab hbc
    cases b with
    | nil => simp [lexLe] at hab
    | cons y ys =>
      cases c with
      | nil => simp [lexLe] at hbc
      | cons z zs =>
        simp only [lexLe, Bool.or_eq_true, Bool.and_eq_true, decide_eq_true_eq] at hab hbc ⊢
        rcases hab with h1 | ⟨h1, h1'⟩
        · rcases hbc with h2 | ⟨h2, h2'⟩
          · exact Or.inl (lt_trans h1 h2)
          · exact Or.inl (by rw [← h2]; exact h1)
        · rcases hbc with h2 | ⟨h2, h2'⟩
          · exact Or.inl (by rw [h1]; exact h2)
          · exact Or.inr ⟨h1.trans h2, ih ys zs h1' h2'⟩

/-! ### Data model (spec section 3, as consumed by `Home.jsx`) -/

/-- A movie as delivered by the backend: `id`, required `title`, and the
optional fields the component reads.  Ratings are JavaScript numbers on a
0-5 scale (possibly fractional), modelled as rationals. -/
structure Movie where
  id : Int
  title : String
  description : Option String
  genre : Option String
  rating : Option ℚ
  year : Option Int
  poster_url : Option String
deriving DecidableEq

/-- Effective rating used by the sort comparator: `movie.rating || 0`
(absent ratings count as 0; a stored 0 is falsy and also yields 0). -/
def effRating (m : Movie) : ℚ := m.rating.getD 0

/-- Effective year used by the sort comparator: `movie.year || 0`. -/
def effYear (m : Movie) : Int := m.year.getD 0

/-! ### Filter/Sort engine (`Home.jsx` lines 86-109) -/

/-- Translation of the `matchesSearch` condition (line 93-94):
`movie.title.toLowerCase().includes(searchTerm.toLowerCase()) ||
 (movie.description && movie.description.toLowerCase().includes(...))`.
An absent description contributes `false`; an empty-string description is
falsy in JavaScript, hence the `d != ""` conjunct. -/
def matchesSearch (searchTerm : String) (m : Movie) : Bool :=
  ciContains m.title searchTerm ||
    (match m.description with
     | some d => (d != "") && ciContains d searchTerm
     | none => false)

/-- Translation of the `matchesGenre` condition (line 95):
`selectedGenre === 'All' || movie.genre === selectedGenre`. -/
def matchesGenre (selectedGenre : String) (m : Movie) : Bool :=
  decide (selectedGenre = "All") || decide (m.genre = some selectedGenre)

/-- The filter predicate of `filteredAndSortedMovies` (lines 92-97). -/
def movieMatches (searchTerm selectedGenre : String) (m : Movie) : Bool :=
  matchesSearch searchTerm m && matchesGenre selectedGenre m

/-- Boolean comparator induced by the numeric comparator of lines 99-106:
`le a b` holds when the JavaScript comparator returns a value `≤ 0` on
`(a, b)`, i.e. `a` may stay before `b`.  `"title"` compares titles
ascending, `"rating"`/`"year"` compare the effective values descending,
and any other key makes every pair compare equal (comparator `0`). -/
def movieLe (sortBy : String) (a b : Movie) : Bool :=
  match sortBy with
  | "title" => lexLe a.title.toList b.title.toList
  | "rating" => decide (effRating b ≤ effRating a)
  | "year" => decide (effYear b ≤ effYear a)
  | _ => true

/-- Translation of the `filteredAndSortedMovies` memo (lines 91-109):
filter the catalog, then sort the filtered copy with the comparator for
the selected key.  `Array.prototype.sort` is stable, so it is modelled by
the stable `List.insertionSort`. -/
def filteredAndSortedMovies
    (movies : List Movie) (searchTerm selectedGenre sortBy : String) : List Movie :=
  (movies.filter (movieMatches searchTerm selectedGenre)).insertionSort
    (fun a b => movieLe sortBy a b = true)

/-- First-occurrence deduplication, modelling `[...new Set(xs)]`
(JavaScript `Set` keeps insertion order). -/
def setDedupAux (seen : List String) : List String → List String
  | [] => []
  | g :: gs => if g ∈ seen then setDedupAux seen gs else g :: setDedupAux (g :: seen) gs

/-- Deduplicate keeping first occurrences, like spreading a `Set`. -/
def setDedup (l : List String) : List String := setDedupAux [] l

/-- Translation of the `genres` memo (lines 86-89):
`['All', ...[...new Set(movies.map(m => m.genre).filter(Boolean))].sort()]`.
`filter(Boolean)` drops absent and empty-string genres. -/
def genres (movies : List Movie) : List String :=
  "All" ::
    (setDedup ((movies.filterMap Movie.genre).filter (fun g => g != ""))).insertionSort
      (fun a b => lexLe a.toList b.toList = true)

/-! ### Favorites store (`Home.jsx` lines 17-20, 45-47, 111-117) -/

/-- Translation of the updater passed to `setFavorites` (lines 112-116):
`prev.includes(movieId) ? prev.filter(id => id !== movieId)
                        : [...prev, movieId]`. -/
def toggleList (movieId : Int) (prev : List Int) : List Int :=
  if movieId ∈ prev then prev.filter (fun id => id != movieId) else prev ++ [movieId]

/-- Model of JavaScript `JSON.stringify` on an array of numbers, which is
the only value this component ever persists (line 46). -/
def stringifyFavs (l : List Int) : String :=
  "[" ++ String.intercalate "," (l.map toString) ++ "]"

/-- In-memory favorites state plus the `movieFavorites` entry of
`localStorage` (`none` = the key is absent). -/
structure FavSystem where
  favorites : List Int
  storage : Option String
deriving DecidableEq

/-- Translation of `toggleFavorite` (lines 111-117): it only calls
`setFavorites`; no write to `localStorage` happens inside the call. -/
def toggleFavorite (movieId : Int) (s : FavSystem) : FavSystem :=
  { s with favorites := toggleList movieId s.favorites }

/-- Translation of the persistence effect (lines 45-47):
`useEffect(() => localStorage.setItem('movieFavorites',
JSON.stringify(favorites)), [favorites])`.  React runs this after the
state update from a toggle has committed and the component re-rendered. -/
def favoritesEffect (s : FavSystem) : FavSystem :=
  { s with storage := some (stringifyFavs s.favorites) }

/-- One fully processed toggle event: the `setFavorites` update followed
by the persistence effect React schedules for it. -/
def processToggle (movieId : Int) (s : FavSystem) : FavSystem :=
  favoritesEffect (toggleFavorite movieId s)

/-- Result of running a JavaScript expression that may throw. -/
inductive JsResult (α : Type) where
  | ok (val : α)
  | exn (msg : String)
deriving DecidableEq

/-- Message of the exception `JSON.parse` throws on invalid input. -/
def jsonSyntaxError : String := "SyntaxError: Unexpected token"

/-- Drop leading JSON whitespace. -/
def skipWs : List Char → List Char
  | [] => []
  | c :: cs => if c = ' ' ∨ c = '\t' ∨ c = '\n' ∨ c = '\r' then skipWs cs else c :: cs

/-- Numeric value of a digit list. -/
def digitsToNat (ds : List Char) : Nat :=
  ds.foldl (fun n c => n * 10 + (c.toNat - 48)) 0

/-- Parse an optionally-signed decimal integer from the front. -/
def parseIntChars (cs : List Char) : Option (Int × List Char) :=
  match cs with
  | '-' :: rest =>
    match rest.takeWhile Char.isDigit, rest.dropWhile Char.isDigit with
    | [], _ => none
    | ds, rest2 => some (-(digitsToNat ds : Int), rest2)
  | _ =>
    match cs.takeWhile Char.isDigit, cs.dropWhile Char.isDigit with
    | [], _ => none
    | ds, rest2 => some ((digitsToNat ds : Int), rest2)

/-- Parse a comma-separated sequence of integers; the fuel argument bounds
the number of items and is instantiated with the input length. -/
def parseItems : Nat → List Char → Option (List Int × List Char)
  | 0, _ => none
  | fuel + 1, cs =>
    match parseIntChars (skipWs cs) with
    | none => none
    | some (n, rest) =>
      match skipWs rest with
      | ',' :: rest2 =>
        match parseItems fuel rest2 with
        | some (ns, rest3) => some (n :: ns, rest3)
        | none => none
      | rest2 => some ([n], rest2)

/-- Model of the JavaScript `JSON.parse` builtin restricted to the only
value shape this component ever persists under `movieFavorites`: a JSON
array of integers.  Any input outside this shape is reported as a parse
failure (`none`), standing for the `SyntaxError` thrown on invalid JSON. -/
def parseFavs (s : String) : Option (List Int) :=
  match skipWs s.toList with
  | '[' :: rest =>
    match skipWs rest with
    | ']' :: rest2 => if (skipWs rest2).isEmpty then some [] else none
    | rest2 =>
      match parseItems (rest2.length + 1) rest2 with
      | some (ns, rest3) =>
        match skipWs rest3 with
        | ']' :: rest4 => if (skipWs rest4).isEmpty then some ns else none
        | _ => none
      | none => none
  | _ => none

/-- Translation of the `useState` initializer for `favorites`
(lines 17-20): `const saved = localStorage.getItem('movieFavorites');
return saved ? JSON.parse(saved) : [];`.  `getItem` yields `none` when the
key is absent; an empty string is falsy; `JSON.parse` is not wrapped in
`try`, so a parse failure escapes as an exception. -/
def initialFavorites (saved : Option String) : JsResult (List Int) :=
  match saved with
  | none => JsResult.ok []
  | some s =>
    if s = "" then JsResult.ok []
    else
      match parseFavs s with
      | some l => JsResult.ok l
      | none => JsResult.exn jsonSyntaxError

/-! ### Backend responses and error bodies (axios wrapper + spec section 6) -/

/-- Optional structured fields of an error response body
(`err.response?.data?.error` / `err.response?.data?.detail`). -/
structure ErrData where
  error : Option String
  detail : Option String
deriving DecidableEq

/-- A transport error as surfaced by axios: a message, an optional HTTP
status and an optional response body (`none` models a network failure or
timeout with no response). -/
structure ApiError where
  message : String
  status : Option Nat
  respData : Option ErrData
deriving DecidableEq

/-- JavaScript truthiness filter on an optional string: `undefined` and
`""` are falsy and make `a || b` fall through to `b`. -/
def jsOrStr : Option String → Option String
  | some s => if s = "" then none else some s
  | none => none

/-- Translation of the error-message derivation used by every catch block:
`err.response?.data?.error || err.response?.data?.detail || fallback`. -/
def errMsgOf (e : ApiError) (fallback : String) : String :=
  match jsOrStr (e.respData.bind ErrData.error) with
  | some s => s
  | none =>
    match jsOrStr (e.respData.bind ErrData.detail) with
    | some s => s
    | none => fallback

/-- A successful response body: either a JSON array of movies or anything
else (the code only ever tests `Array.isArray`). -/
inductive ApiData where
  | arr (ms : List Movie)
  | notArr
deriving DecidableEq

/-- Translation of `Array.isArray(response.data) ? response.data : []`. -/
def coerceArr : ApiData → List Movie
  | ApiData.arr ms => ms
  | ApiData.notArr => []

/-- Outcome of one awaited request: resolved body or thrown error. -/
inductive ApiOutcome where
  | ok (d : ApiData)
  | fail (e : ApiError)
deriving DecidableEq

/-! ### Catalog store (`Home.jsx` lines 22-43) -/

/-- Catalog state: `movies`, `loading`, `error`. -/
structure CatalogState where
  movies : List Movie
  loading : Bool
  error : Option String
deriving DecidableEq

/-- Translation of `fetchMovies` (lines 23-41) run to completion on a given
request outcome: set `loading`, then on success store the coerced list and
clear the error, on failure keep the old list and store the derived
message; the `finally` clears `loading` on every path. -/
def fetchMoviesRun (st : CatalogState) (outcome : ApiOutcome) : CatalogState :=
  let st1 := { st with loading := true }
  match outcome with
  | ApiOutcome.ok d =>
    { st1 with movies := coerceArr d, error := none, loading := false }
  | ApiOutcome.fail e =>
    { st1 with
        error := some (errMsgOf e "Failed to load movies. Please try again later."),
        loading := false }

/-! ### Recommendation orchestrator (`Home.jsx` lines 49-84) -/

/-- A JavaScript number as used for `movieId`: an ordinary numeric value
or `NaN`. -/
inductive JsNum where
  | num (q : ℚ)
  | nan
deriving DecidableEq

/-- JavaScript truthiness of a number: `0` and `NaN` are falsy. -/
def jsTruthy : JsNum → Bool
  | JsNum.num q => decide (q ≠ 0)
  | JsNum.nan => false

/-- The global `isNaN` on a number. -/
def jsIsNaN : JsNum → Bool
  | JsNum.num _ => false
  | JsNum.nan => true

/-- Recommendation-panel state: result list, selected id, loading flag and
error message (independent of the catalog state). -/
structure RecState where
  recommended : List Movie
  selectedMovieId : Option JsNum
  recLoading : Bool
  recommendationError : Option String
deriving DecidableEq

/-- Translation of the synchronous prefix of `fetchRecommended`
(lines 49-58), up to the `await`: the guard
`if (!movieId || isNaN(movieId))` sets the validation error and returns
without a request; otherwise the loading flag is set, the previous error
and result list are cleared, and a request is issued.  The second
component records whether a network request was issued. -/
def fetchRecommendedStart (st : RecState) (movieId : JsNum) : RecState × Bool :=
  if !jsTruthy movieId || jsIsNaN movieId then
    ({ st with recommendationError := some "Please select a valid movie." }, false)
  else
    ({ st with recLoading := true, recommendationError := none, recommended := [] }, true)

/-- Translation of the collaborative-mode message augmentation and
fallback chain of the catch block (lines 66-73). -/
def recErrMsg (recType : String) (e : ApiError) : String :=
  let base := errMsgOf e "Failed to load recommendations. Please try again."
  if decide (recType = "collaborative") && strContains (lowerChars base) (lowerChars "tmdb") then
    base ++ " Collaborative recommendations rely on TMDb data."
  else base

/-- Translation of the rest of `fetchRecommended` (lines 61-83), applied
to the state produced by `fetchRecommendedStart` once the awaited request
settles: on success store the coerced list and record the selected movie;
on failure set the derived message and force the list empty; the
`finally` clears the loading flag on both paths. -/
def fetchRecommendedFinish
    (recType : String) (movieId : JsNum) (st : RecState) (outcome : ApiOutcome) : RecState :=
  match outcome with
  | ApiOutcome.ok d =>
    { st with recommended := coerceArr d, selectedMovieId := some movieId, recLoading := false }
  | ApiOutcome.fail e =>
    { st with
        recommendationError := some (recErrMsg recType e),
        recommended := [],
        recLoading := false }

/-! ### Concrete sample data used by witnesses and counterexamples -/

/-- Sample catalog movie (from the spec's scenario section). -/
def mDune : Movie :=
  ⟨1, "Dune", some "A desert planet saga", some "Sci-Fi", some 4, some 2021, none⟩

/-- Second sample movie with the same rating as `mDune`. -/
def mHer : Movie :=
  ⟨2, "Her", some "An operating system romance", some "Drama", some 4, some 2013, none⟩

/-- A movie whose genre is the literal string `"All"`. -/
def mAllGenre : Movie :=
  ⟨3, "Everything", none, some "All", some 3, none, none⟩

/-- Idle recommendation state with no results and no error. -/
def recSt0 : RecState := ⟨[], none, false, none⟩

/-- Recommendation state holding a previous result and a previous error. -/
def recSt1 : RecState := ⟨[mDune], none, false, some "old error"⟩

/-- Favorites state whose storage is in sync with the empty set. -/
def favSys0 : FavSystem := ⟨[], some "[]"⟩

end MovieApp

namespace MovieApp

/-! ### Shared helper lemmas -/

/-- Membership in first-occurrence deduplication. -/
theorem mem_setDedupAux :
    ∀ (l seen : List String) (g : String),
      g ∈ setDedupAux seen l ↔ (g ∈ l ∧ g ∉ seen) := by
  intro l
  induction l with
  | nil => intro seen g; simp [setDedupAux]
  | cons a t ih =>
    intro seen g
    rw [setDedupAux]
    split
    · rename_i ha
      rw [ih]
      simp only [List.mem_cons]
      constructor
      · rintro ⟨hgt, hgs⟩
        exact ⟨Or.inr hgt, hgs⟩
      · rintro ⟨rfl | hgt, hgs⟩
        · exact absurd ha hgs
        · exact ⟨hgt, hgs⟩
    · rename_i ha
      simp only [List.mem_cons, ih, not_or]
      constructor
      · rintro (rfl | ⟨hgt, hne, hgs⟩)
        · exact ⟨Or.inl rfl, ha⟩
        · exact ⟨Or.inr hgt, hgs⟩
      · rintro ⟨rfl | hgt, hgs⟩
        · exact Or.inl rfl
        · by_cases hga : g = a
          · exact Or.inl hga
          · exact Or.inr ⟨hgt, hga, hgs⟩

/-- First-occurrence deduplication never produces duplicates. -/
theorem nodup_setDedupAux : ∀ (l seen : List String), (setDedupAux seen l).Nodup := by
  intro l
  induction l with
  | nil => intro seen; simp [setDedupAux]
  | cons a t ih =>
    intro seen
    rw [setDedupAux]
    split
    · exact ih seen
    · refine List.nodup_cons.mpr ⟨?_, ih (a :: seen)⟩
      intro hmem
      exact ((mem_setDedupAux t (a :: seen) a).mp hmem).2 (List.mem_cons_self a seen)

/-- Characterization of the genre values listed after the `"All"` sentinel:
exactly the non-empty genres occurring in the catalog. -/
theorem mem_genres_tail :
    ∀ (C : List Movie) (g : String),
      g ∈ (genres C).tail ↔ ((∃ m ∈ C, m.genre = some g) ∧ g ≠ "") := by
  intro C g
  show g ∈ (setDedup ((C.filterMap Movie.genre).filter (fun x => x != ""))).insertionSort
      (fun a b => lexLe a.toList b.toList = true) ↔ _
  rw [(List.perm_insertionSort _ _).mem_iff, setDedup, mem_setDedupAux]
  simp only [List.mem_filter, List.mem_filterMap, List.not_mem_nil, not_false_iff,
    and_true, bne_iff_ne, ne_eq]

end MovieApp

namespace MovieApp

/-! ### Claim theorems -/

/-- C1 counterexample: calling `fetchRecommended` with movieId `-1` — not a
positive integer — passes the `!movieId || isNaN(movieId)` guard, so a
network request IS issued and no validation error is set, refuting the
claim that every non-positive-integer id fails immediately without a
request. -/
theorem fetchRecommended_neg_one_issues_request :
    (fetchRecommendedStart recSt0 (JsNum.num (-1))).2 = true ∧
      (fetchRecommendedStart recSt0 (JsNum.num (-1))).1.recommendationError = none := by
  decide

/-- C1 (amended): the `fetchRecommended` guard rejects exactly the falsy or
NaN movieIds (the number 0 and NaN): for those, and for every mode, it sets
the validation error message and issues no network request; every other
numeric id — including negative and non-integer values such as -1 — passes
the guard and a network request is issued with no validation error. -/
theorem fetchRecommended_validation_exact :
    ∀ (st : RecState) (movieId : JsNum),
      ((!jsTruthy movieId || jsIsNaN movieId) = true →
        (fetchRecommendedStart st movieId).2 = false ∧
          (fetchRecommendedStart st movieId).1.recommendationError =
            some "Please select a valid movie.") ∧
      ((!jsTruthy movieId || jsIsNaN movieId) = false →
        (fetchRecommendedStart st movieId).2 = true ∧
          (fetchRecommendedStart st movieId).1.recommendationError = none) := by
  intro st movieId
  constructor <;> intro h <;> simp [fetchRecommendedStart, h]

/-- C1 witness: the amended validation behaviour evaluated at movieId 0
(rejected, no request) and movieId -1 (accepted, request issued). -/
theorem fetchRecommended_validation_exact_witness :
    ((fetchRecommendedStart recSt0 (JsNum.num 0)).2 = false ∧
      (fetchRecommendedStart recSt0 (JsNum.num 0)).1.recommendationError =
        some "Please select a valid movie.") ∧
      ((fetchRecommendedStart recSt0 (JsNum.num (-1))).2 = true ∧
        (fetchRecommendedStart recSt0 (JsNum.num (-1))).1.recommendationError = none) :=
  ⟨(fetchRecommended_validation_exact recSt0 (JsNum.num 0)).1 (by decide),
   (fetchRecommended_validation_exact recSt0 (JsNum.num (-1))).2 (by decide)⟩

/-- C2 counterexample: an invocation of `fetchRecommended` with movieId 0
(which fails the guard) leaves the previously stored result list in place
and sets — rather than clears — the error, refuting the claim that every
invocation, whatever the movieId, empties the list and clears the error. -/
theorem fetchRecommended_invalid_keeps_previous_results :
    (fetchRecommendedStart recSt1 (JsNum.num 0)).1.recommended ≠ [] ∧
      (fetchRecommendedStart recSt1 (JsNum.num 0)).1.recommendationError ≠ none := by
  decide

/-- C2 (amended): for every invocation of `fetchRecommended` whose movieId
passes the validation guard, the result list is emptied, the error is
cleared and the loading flag is set before any request outcome is
recorded; invocations failing the guard instead leave the list untouched
and set the validation error. -/
theorem fetchRecommended_valid_clears_state :
    ∀ (st : RecState) (movieId : JsNum),
      (!jsTruthy movieId || jsIsNaN movieId) = false →
      fetchRecommendedStart st movieId =
        ({ recommended := [], selectedMovieId := st.selectedMovieId, recLoading := true,
           recommendationError := none }, true) := by
  intro st movieId h
  simp [fetchRecommendedStart, h]

/-- C2 witness: the amended clearing behaviour evaluated at a state holding
a previous result and a previous error, with the valid movieId 7. -/
theorem fetchRecommended_valid_clears_state_witness :
    fetchRecommendedStart recSt1 (JsNum.num 7) =
      ({ recommended := [], selectedMovieId := recSt1.selectedMovieId, recLoading := true,
         recommendationError := none }, true) :=
  fetchRecommended_valid_clears_state recSt1 (JsNum.num 7) (by decide)

/-- C3 counterexample: initializing favorites from the persisted value
`"oops"`, which is not parsable as JSON, throws (the `JSON.parse` call is
not wrapped in `try`) instead of yielding the empty set, refuting the
claim that an unparsable value yields the empty favorites set. -/
theorem initialFavorites_unparsable_throws :
    initialFavorites (some "oops") = JsResult.exn jsonSyntaxError ∧
      initialFavorites (some "oops") ≠ JsResult.ok [] := by
  decide

/-- C3 (amended): an absent (or empty-string) persisted value yields the
empty favorites set, and a parsable value yields the parsed list; but a
present non-empty value that is not parsable makes initialization throw an
uncaught exception rather than yield the empty set. -/
theorem initialFavorites_behavior :
    initialFavorites none = JsResult.ok [] ∧
      (∀ s : String, s ≠ "" → parseFavs s = none →
        initialFavorites (some s) = JsResult.exn jsonSyntaxError) ∧
      (∀ (s : String) (l : List Int), parseFavs s = some l →
        initialFavorites (some s) = JsResult.ok l) := by
  refine ⟨rfl, ?_, ?_⟩
  · intro s hs hp
    simp [initialFavorites, hs, hp]
  · intro s l hp
    have hs : s ≠ "" := by
      intro h
      rw [h] at hp
      rw [show parseFavs "" = none from rfl] at hp
      exact Option.noConfusion hp
    simp [initialFavorites, hs, hp]

/-- C3 witness: initialization evaluated at the unparsable value
`"not json"` (throws) and at the parsable value `"[1,2]"` (parsed). -/
theorem initialFavorites_behavior_witness :
    initialFavorites (some "not json") = JsResult.exn jsonSyntaxError ∧
      initialFavorites (some "[1,2]") = JsResult.ok [1, 2] :=
  ⟨initialFavorites_behavior.2.1 "not json" (by decide) (by decide),
   initialFavorites_behavior.2.2 "[1,2]" [1, 2] (by decide)⟩

/-- C4 counterexample: immediately after the `toggleFavorite` call returns
(before React runs the persistence effect), the persisted value still holds
the old encoding, not the JSON encoding of the updated in-memory set —
refuting the claim that the write is synchronous with the toggle call. -/
theorem toggleFavorite_does_not_write_storage :
    (toggleFavorite 1 favSys0).storage ≠
      some (stringifyFavs (toggleFavorite 1 favSys0).favorites) := by
  decide

/-- C4 (amended): the `toggleFavorite` call itself never touches the
persisted storage (the write is deferred to the `useEffect` that React runs
after the update commits); once that effect has run, the persisted value is
exactly the JSON encoding of the in-memory favorites set. -/
theorem favorites_storage_synced_after_effect :
    ∀ (s : FavSystem) (movieId : Int),
      (toggleFavorite movieId s).storage = s.storage ∧
        (processToggle movieId s).storage =
          some (stringifyFavs (processToggle movieId s).favorites) := by
  intro s movieId
  exact ⟨rfl, rfl⟩

/-- C5: every movie returned by `filteredAndSortedMovies` satisfies the
search filter — the query is a case-insensitive substring of its title or
of its (non-empty) description — and, when the genre selector is not
`"All"`, has exactly the selected genre; moreover with an empty query and
the `"All"` genre no movie of the catalog is dropped. -/
theorem filteredAndSortedMovies_filter_sound :
    (∀ (C : List Movie) (q g sk : String) (m : Movie),
        m ∈ filteredAndSortedMovies C q g sk →
          (ciContains m.title q = true ∨
            ∃ d, m.description = some d ∧ ciContains d q = true) ∧
          (g ≠ "All" → m.genre = some g)) ∧
      (∀ (C : List Movie) (sk : String) (m : Movie),
        m ∈ C → m ∈ filteredAndSortedMovies C "" "All" sk) := by
  constructor
  · intro C q g sk m hm
    simp only [filteredAndSortedMovies] at hm
    have hm' : m ∈ C.filter (movieMatches q g) :=
      (List.perm_insertionSort _ _).mem_iff.mp hm
    have hmatch := (List.mem_filter.mp hm').2
    rw [movieMatches, Bool.and_eq_true] at hmatch
    obtain ⟨hsearch, hgenre⟩ := hmatch
    constructor
    · cases hd : m.description with
      | none =>
        simp only [matchesSearch, hd, Bool.or_false] at hsearch
        exact Or.inl hsearch
      | some d =>
        simp only [matchesSearch, hd, Bool.or_eq_true, Bool.and_eq_true] at hsearch
        rcases hsearch with h | ⟨hne, h⟩
        · exact Or.inl h
        · exact Or.inr ⟨d, rfl, h⟩
    · intro hg
      simp only [matchesGenre, Bool.or_eq_true, decide_eq_true_eq] at hgenre
      rcases hgenre with h | h
      · exact absurd h hg
      · exact h
  · intro C sk m hm
    simp only [filteredAndSortedMovies]
    rw [(List.perm_insertionSort _ _).mem_iff]
    refine List.mem_filter.mpr ⟨hm, ?_⟩
    rw [movieMatches, Bool.and_eq_true]
    constructor
    · simp only [matchesSearch, Bool.or_eq_true]
      left
      simp only [ciContains, lowerChars_empty]
      exact strContains_nil _
    · simp only [matchesGenre, Bool.or_eq_true, decide_eq_true_eq]
      exact Or.inl trivial

/-- C5 witness: the filter soundness evaluated on concrete catalogs — the
movie `Dune` surviving the query `"du"` with genre `"Sci-Fi"`, and the
movie `Her` passing through the empty query with the `"All"` genre. -/
theorem filteredAndSortedMovies_filter_sound_witness :
    ((ciContains mDune.title "du" = true ∨
        ∃ d, mDune.description = some d ∧ ciContains d "du" = true) ∧
      ("Sci-Fi" ≠ "All" → mDune.genre = some "Sci-Fi")) ∧
      mHer ∈ filteredAndSortedMovies [mHer] "" "All" "title" :=
  ⟨filteredAndSortedMovies_filter_sound.1 [mDune] "du" "Sci-Fi" "title" mDune (by decide),
   filteredAndSortedMovies_filter_sound.2 [mHer] "title" mHer (by decide)⟩

/-- C6: for every catalog, query and genre, the output of
`filteredAndSortedMovies` under the `"rating"` sort key is non-increasing
in effective rating (absent rating counts as 0), and movies of equal
effective rating keep the relative order they had in the filtered input
(the sort is stable). -/
theorem filteredAndSortedMovies_rating_sorted_stable :
    ∀ (C : List Movie) (q g : String),
      (filteredAndSortedMovies C q g "rating").Sorted
          (fun a b => effRating b ≤ effRating a) ∧
        (∀ a b : Movie, effRating a = effRating b →
          List.Sublist [a, b] (C.filter (movieMatches q g)) →
          List.Sublist [a, b] (filteredAndSortedMovies C q g "rating")) := by
  intro C q g
  have hml : ∀ a b : Movie, movieLe "rating" a b = decide (effRating b ≤ effRating a) :=
    fun a b => rfl
  constructor
  · haveI htrans : IsTrans Movie (fun a b => movieLe "rating" a b = true) := ⟨by
      intro a b c hab hbc
      simp only [hml, decide_eq_true_eq] at hab hbc ⊢
      exact le_trans hbc hab⟩
    haveI htot : IsTotal Movie (fun a b => movieLe "rating" a b = true) := ⟨by
      intro a b
      simp only [hml, decide_eq_true_eq]
      exact le_total _ _⟩
    have hs := List.sorted_insertionSort (fun a b => movieLe "rating" a b = true)
      (C.filter (movieMatches q g))
    simp only [filteredAndSortedMovies]
    refine List.Pairwise.imp ?_ hs
    intro a b hab
    simpa only [hml, decide_eq_true_eq] using hab
  · intro a b heq hsub
    simp only [filteredAndSortedMovies]
    refine List.pair_sublist_insertionSort ?_ hsub
    simp only [hml, decide_eq_true_eq]
    exact le_of_eq heq.symm

/-- C6 witness: the rating sort evaluated on the two-movie catalog
`[Dune, Her]` with equal effective ratings — the pair keeps its order in
the output, which is sorted by effective rating. -/
theorem filteredAndSortedMovies_rating_sorted_stable_witness :
    List.Sublist [mDune, mHer] (filteredAndSortedMovies [mDune, mHer] "" "All" "rating") ∧
      (filteredAndSortedMovies [mDune, mHer] "" "All" "rating").Sorted
        (fun a b => effRating b ≤ effRating a) :=
  ⟨(filteredAndSortedMovies_rating_sorted_stable [mDune, mHer] "" "All").2 mDune mHer
      (by decide) (by decide),
   (filteredAndSortedMovies_rating_sorted_stable [mDune, mHer] "" "All").1⟩

/-- C7 counterexample: on a catalog containing a movie whose genre is the
literal string `"All"`, `genres` returns `["All", "All"]`, which contains a
duplicate — refuting the claim that the result never contains duplicates. -/
theorem genres_all_genre_duplicates :
    genres [mAllGenre] = ["All", "All"] ∧ ¬ (genres [mAllGenre]).Nodup := by
  decide

/-- C7 (amended): `genres C` always starts with the sentinel `"All"`,
followed by exactly the distinct non-empty genre values of movies in `C`,
without duplicates and sorted lexicographically ascending; the full list is
duplicate-free provided no movie of `C` carries the literal genre `"All"`
(a movie with genre `"All"` duplicates the sentinel). -/
theorem genres_shape :
    ∀ C : List Movie,
      (genres C).head? = some "All" ∧
        (genres C).tail.Sorted (fun a b : String => lexLe a.toList b.toList = true) ∧
        (genres C).tail.Nodup ∧
        (∀ g : String, g ∈ (genres C).tail ↔ ((∃ m ∈ C, m.genre = some g) ∧ g ≠ "")) ∧
        ((∀ m ∈ C, m.genre ≠ some "All") → (genres C).Nodup) := by
  intro C
  haveI : IsTrans String (fun a b : String => lexLe a.toList b.toList = true) :=
    ⟨fun a b c hab hbc => lexLe_trans _ _ _ hab hbc⟩
  haveI : IsTotal String (fun a b : String => lexLe a.toList b.toList = true) :=
    ⟨fun a b => lexLe_total _ _⟩
  refine ⟨rfl, ?_, ?_, mem_genres_tail C, ?_⟩
  · exact List.sorted_insertionSort _ _
  · exact (List.perm_insertionSort _ _).nodup_iff.mpr (nodup_setDedupAux _ _)
  · intro h
    refine List.nodup_cons.mpr
      ⟨?_, (List.perm_insertionSort _ _).nodup_iff.mpr (nodup_setDedupAux _ _)⟩
    intro hmem
    obtain ⟨⟨m, hmC, hg⟩, -⟩ := (mem_genres_tail C "All").mp hmem
    exact h m hmC hg

/-- C7 witness: the amended shape evaluated on the one-movie catalog
`[Dune]` — the full genre list is duplicate-free and `"Sci-Fi"` appears
after the sentinel exactly because `Dune` carries it. -/
theorem genres_shape_witness :
    (genres [mDune]).Nodup ∧
      ("Sci-Fi" ∈ (genres [mDune]).tail ↔
        ((∃ m ∈ [mDune], m.genre = some "Sci-Fi") ∧ "Sci-Fi" ≠ "")) :=
  ⟨(genres_shape [mDune]).2.2.2.2 (by decide), (genres_shape [mDune]).2.2.2.1 "Sci-Fi"⟩

/-- C8: toggling the same movie id twice in succession returns the
favorites to a set equal to the original one — membership after two
toggles coincides with membership before. -/
theorem toggleFavorite_twice_set_identity :
    ∀ (l : List Int) (x y : Int), (y ∈ toggleList x (toggleList x l)) ↔ y ∈ l := by
  intro l x y
  by_cases hx : x ∈ l
  · have h1 : toggleList x l = l.filter (fun id => id != x) := if_pos hx
    rw [h1]
    have h2 : toggleList x (l.filter (fun id => id != x)) =
        l.filter (fun id => id != x) ++ [x] := if_neg (by simp)
    rw [h2]
    simp only [List.mem_append, List.mem_filter, List.mem_singleton, bne_iff_ne, ne_eq]
    constructor
    · rintro (⟨hy, _⟩ | rfl)
      · exact hy
      · exact hx
    · intro hy
      by_cases hyx : y = x
      · exact Or.inr hyx
      · exact Or.inl ⟨hy, hyx⟩
  · have h1 : toggleList x l = l ++ [x] := if_neg hx
    rw [h1]
    have h2 : toggleList x (l ++ [x]) = (l ++ [x]).filter (fun id => id != x) :=
      if_pos (by simp)
    rw [h2]
    simp only [List.mem_filter, List.mem_append, List.mem_singleton, bne_iff_ne, ne_eq]
    constructor
    · rintro ⟨hy | rfl, hne⟩
      · exact hy
      · exact absurd rfl hne
    · intro hy
      refine ⟨Or.inl hy, ?_⟩
      rintro rfl
      exact hx hy

/-- C9: when the catalog load receives a successful response whose body is
not a list, the catalog is stored as the empty list, the error state is
cleared, and the loading flag is cleared on completion. -/
theorem fetchMovies_nonlist_success :
    ∀ st : CatalogState,
      (fetchMoviesRun st (ApiOutcome.ok ApiData.notArr)).movies = [] ∧
        (fetchMoviesRun st (ApiOutcome.ok ApiData.notArr)).error = none ∧
        (fetchMoviesRun st (ApiOutcome.ok ApiData.notArr)).loading = false := by
  intro st
  exact ⟨rfl, rfl, rfl⟩

/-- C10: whenever the movieId validation guard of `fetchRecommended`
fails, the stored result list, the selected movie id and the loading flag
are left unchanged; only the recommendation error message is set. -/
theorem fetchRecommended_invalid_frame :
    ∀ (st : RecState) (movieId : JsNum),
      (!jsTruthy movieId || jsIsNaN movieId) = true →
      (fetchRecommendedStart st movieId).1.recommended = st.recommended ∧
        (fetchRecommendedStart st movieId).1.selectedMovieId = st.selectedMovieId ∧
        (fetchRecommendedStart st movieId).1.recLoading = st.recLoading ∧
        (fetchRecommendedStart st movieId).1.recommendationError =
          some "Please select a valid movie." := by
  intro st movieId h
  simp [fetchRecommendedStart, h]

/-- C10 witness: the frame property evaluated at a state holding a previous
result list, with the invalid movieId `NaN`. -/
theorem fetchRecommended_invalid_frame_witness :
    (fetchRecommendedStart recSt1 JsNum.nan).1.recommended = recSt1.recommended ∧
      (fetchRecommendedStart recSt1 JsNum.nan).1.selectedMovieId = recSt1.selectedMovieId ∧
      (fetchRecommendedStart recSt1 JsNum.nan).1.recLoading = recSt1.recLoading ∧
      (fetchRecommendedStart recSt1 JsNum.nan).1.recommendationError =
        some "Please select a valid movie." :=
  fetchRecommended_invalid_frame recSt1 JsNum.nan (by decide)

end MovieApp
